import Mathlib

/-!
Verification development for the Zeus short-iron-condor backtester
(`src/Zeus/`).  The Python modules are shallowly embedded: floats become
exact rationals (`ℚ`), pandas NaN becomes `Option.none`, Python sets become
`Finset`, raised exceptions become `Except.error`.  Each definition mirrors
one Python function; line references point into the repository sources.
-/

/-- A Python runtime exception, as far as the embedded code can raise one. -/
inductive PyErr where
  /-- `TypeError`, e.g. an unexpected keyword argument to a dataclass
  constructor. -/
  | typeError
  /-- `AttributeError`, e.g. reading a missing attribute or enum member. -/
  | attributeError
deriving DecidableEq, Repr

/-- `models.TradeResult` (models.py lines 21-26). -/
inductive TradeResult where
  | WIN
  | LOSS
  | OPEN
deriving DecidableEq, Repr

/-- `models.ExitReason` (models.py lines 29-34).  Exactly three members:
there is no `EXPIRY` member. -/
inductive ExitReason where
  | BREACH_SHORT_CALL
  | BREACH_SHORT_PUT
  | EXPIRY_WORTHLESS
deriving DecidableEq, Repr

/-- The attribute names of the `models.ExitReason` enum (models.py lines
29-34), used to model Python's member lookup `ExitReason.<name>`. -/
def exitReasonMemberNames : List String :=
  ["BREACH_SHORT_CALL", "BREACH_SHORT_PUT", "EXPIRY_WORTHLESS"]

/-- Python member access `ExitReason.<s>`: the member when `s` names one,
`none` (AttributeError at the access site) otherwise. -/
def exitReasonMember (s : String) : Option ExitReason :=
  if s = "BREACH_SHORT_CALL" then some .BREACH_SHORT_CALL
  else if s = "BREACH_SHORT_PUT" then some .BREACH_SHORT_PUT
  else if s = "EXPIRY_WORTHLESS" then some .EXPIRY_WORTHLESS
  else none

/-- `models.RejectionReason` (models.py lines 37-46). -/
inductive RejectionReason where
  | OUTSIDE_SESSION
  | ADX_TOO_HIGH
  | RSI_OUT_OF_RANGE
  | PRICE_RANGE_RANK_TOO_LOW
  | WITHIN_BLACKOUT_BUFFER
  | INDICATORS_NOT_READY
  | DUPLICATE_WEEK
deriving DecidableEq, Repr

/-- `models.StrategyParams` (models.py lines 54-80): exactly the declared
fields.  Note that there is no `wing_width` field. -/
structure StrategyParams where
  ema_period : ℕ
  atr_period : ℕ
  atr_multiplier : ℚ
  adx_period : ℕ
  adx_threshold : ℚ
  rsi_low : ℚ
  rsi_high : ℚ
  price_range_rank_min : ℚ
  blackout_buffer_days : ℕ
  credit_received : ℚ
  max_loss : ℚ
  session_open_hour : ℕ
  session_open_minute : ℕ
  session_close_hour : ℕ
  session_close_minute : ℕ
  timezone : String
deriving DecidableEq, Repr

/-- The default parameter values of `models.StrategyParams`
(models.py lines 59-80). -/
def defaultParams : StrategyParams :=
  { ema_period := 20
    atr_period := 14
    atr_multiplier := 2
    adx_period := 14
    adx_threshold := 25
    rsi_low := 30
    rsi_high := 70
    price_range_rank_min := 3/10
    blackout_buffer_days := 3
    credit_received := 1/2
    max_loss := 5/2
    session_open_hour := 9
    session_open_minute := 30
    session_close_hour := 16
    session_close_minute := 0
    timezone := "America/New_York" }

/-- The field names of the frozen dataclass `models.Trade`
(models.py lines 116-136), in declaration order.  Note the absence of
`structure`, `prr_upside` and `prr_downside`. -/
def tradeFieldNames : List String :=
  ["trade_id", "entry_timestamp", "expiry_date", "upper_strike",
   "lower_strike", "credit_received", "result", "exit_reason",
   "exit_timestamp", "loss_realised", "pnl", "entry_adx", "entry_rsi",
   "entry_price_range_rank", "entry_ema"]

/-- The keyword-argument names `TradeEntryEngine.evaluate_bar` passes to the
`Trade(...)` constructor (entry_engine.py lines 218-234). -/
def entryTradeKwargNames : List String :=
  ["trade_id", "entry_timestamp", "expiry_date", "upper_strike",
   "lower_strike", "credit_received", "result", "exit_reason",
   "entry_adx", "entry_rsi", "entry_price_range_rank", "entry_ema",
   "structure", "prr_upside", "prr_downside"]

/-- A Python dataclass call accepts a keyword-argument list iff every
keyword names a declared field; otherwise it raises `TypeError`. -/
def acceptsKwargs (fields kwargs : List String) : Bool :=
  kwargs.all fields.contains

/- ----------------------------------------------------------------------
Calendar arithmetic (Python `datetime.date` / `datetime.isocalendar`).
---------------------------------------------------------------------- -/

/-- A calendar date, as Python's `datetime.date`. -/
structure Date where
  year : ℤ
  month : ℕ
  day : ℕ
deriving DecidableEq, Repr

/-- Gregorian leap year. -/
def isLeap (y : ℤ) : Bool :=
  (y % 4 == 0 && y % 100 != 0) || (y % 400 == 0)

/-- Days in a Gregorian month. -/
def daysInMonth (y : ℤ) (m : ℕ) : ℕ :=
  if m = 2 then (if isLeap y then 29 else 28)
  else if m = 4 ∨ m = 6 ∨ m = 9 ∨ m = 11 then 30
  else 31

/-- Day of the year (1-based), as used by `date.toordinal`. -/
def dayOfYear (dt : Date) : ℕ :=
  (List.range (dt.month - 1)).foldl
    (fun acc i => acc + daysInMonth dt.year (i + 1)) 0 + dt.day

/-- Python's `date.toordinal`: day 1 is 0001-01-01. -/
def toOrdinal (dt : Date) : ℤ :=
  365 * (dt.year - 1) + (dt.year - 1).fdiv 4 - (dt.year - 1).fdiv 100
    + (dt.year - 1).fdiv 400 + (dayOfYear dt : ℤ)

/-- Python's `date.weekday()`: Monday = 0 … Sunday = 6. -/
def weekdayMon0 (dt : Date) : ℤ :=
  (toOrdinal dt - 1) % 7

/-- ISO weekday: Monday = 1 … Sunday = 7. -/
def isoWeekday (dt : Date) : ℤ :=
  weekdayMon0 dt + 1

/-- Number of ISO weeks (52 or 53) in an ISO year. -/
def isoWeeksInYear (y : ℤ) : ℤ :=
  if isoWeekday ⟨y, 1, 1⟩ = 4 ∨ (isLeap y ∧ isoWeekday ⟨y, 1, 1⟩ = 3)
  then 53 else 52

/-- The ISO week number of a date: component `[1]` of Python's
`date.isocalendar()`.  The ISO year component is deliberately not part of
the result, matching `entry_engine.py` line 198 which keeps only `[1]`. -/
def isoWeekNumber (dt : Date) : ℕ :=
  let w : ℤ := ((dayOfYear dt : ℤ) - isoWeekday dt + 10).fdiv 7
  if w < 1 then (isoWeeksInYear (dt.year - 1)).toNat
  else if isoWeeksInYear dt.year < w then 1
  else w.toNat

/-- Successor day in the Gregorian calendar. -/
def nextDay (dt : Date) : Date :=
  if dt.day < daysInMonth dt.year dt.month then ⟨dt.year, dt.month, dt.day + 1⟩
  else if dt.month < 12 then ⟨dt.year, dt.month + 1, 1⟩
  else ⟨dt.year + 1, 1, 1⟩

/-- `date + timedelta(days = n)` for `n ≥ 0`. -/
def addDays (dt : Date) (n : ℕ) : Date :=
  Nat.iterate nextDay n dt

/-- Python `date` ordering (lexicographic on year, month, day). -/
def dateLe (a b : Date) : Prop :=
  a.year < b.year ∨ (a.year = b.year ∧
    (a.month < b.month ∨ (a.month = b.month ∧ a.day ≤ b.day)))

instance (a b : Date) : Decidable (dateLe a b) := by
  unfold dateLe; exact inferInstance

/-- A time of day (hour, minute), as Python's `datetime.time` at the
granularity the engines use. -/
structure Tod where
  hour : ℕ
  minute : ℕ
deriving DecidableEq, Repr

/-- Minutes since midnight; Python `time` comparison agrees with comparison
of this value for times that carry only hours and minutes. -/
def Tod.minutesOfDay (t : Tod) : ℕ :=
  t.hour * 60 + t.minute

/-- A timezone-naive local timestamp (Python `datetime`): a date plus a
time of day. -/
structure Timestamp where
  date : Date
  tod : Tod
deriving DecidableEq, Repr

/- ----------------------------------------------------------------------
models.py records
---------------------------------------------------------------------- -/

/-- `models.Trade` (models.py lines 116-136): exactly the declared fields
of the frozen dataclass. -/
structure Trade where
  trade_id : ℕ
  entry_timestamp : Timestamp
  expiry_date : Timestamp
  upper_strike : ℚ
  lower_strike : ℚ
  credit_received : ℚ
  result : TradeResult
  exit_reason : ExitReason
  exit_timestamp : Option Timestamp := none
  loss_realised : ℚ := 0
  pnl : ℚ := 0
  entry_adx : ℚ := 0
  entry_rsi : ℚ := 0
  entry_price_range_rank : ℚ := 0
  entry_ema : ℚ := 0
deriving DecidableEq, Repr

/-- The trade record as `entry_engine.evaluate_bar` constructs it
(entry_engine.py lines 218-234) and as `exit_engine.resolve` consumes it
(exit_engine.py lines 72-94): the `models.Trade` fields plus `structure`,
`prr_upside` and `prr_downside`.  `models.Trade` itself fails to declare
those three fields, which is the constructor `TypeError` established for
the entry engine; this record is the de-facto interface the two engines
agree on.  The Python field name `structure` is a Lean keyword and is
rendered `structure_`. -/
structure TradeFull where
  trade_id : ℕ
  entry_timestamp : Timestamp
  expiry_date : Timestamp
  upper_strike : ℚ
  lower_strike : ℚ
  credit_received : ℚ
  result : TradeResult
  exit_reason : ExitReason
  exit_timestamp : Option Timestamp := none
  loss_realised : ℚ := 0
  pnl : ℚ := 0
  entry_adx : ℚ := 0
  entry_rsi : ℚ := 0
  entry_price_range_rank : ℚ := 0
  entry_ema : ℚ := 0
  structure_ : String
  prr_upside : ℚ
  prr_downside : ℚ
deriving DecidableEq, Repr

/-- `models.RejectedTrade` (models.py lines 144-153).  Free-text `detail`
strings reproduce the source text with numeric format placeholders elided
(the claims never inspect them). -/
structure RejectedTrade where
  timestamp : Timestamp
  reason : RejectionReason
  detail : String := ""
  adx : Option ℚ := none
  rsi : Option ℚ := none
  price_range_rank : Option ℚ := none
deriving DecidableEq, Repr

/- ----------------------------------------------------------------------
entry_engine.py
---------------------------------------------------------------------- -/

/-- One bar handed to the engines: raw OHLC values plus the indicator
columns `evaluate_bar` reads; a pandas NaN (or missing column) is `none`. -/
structure Row where
  high : ℚ := 0
  low : ℚ := 0
  close : ℚ := 0
  ema : Option ℚ := none
  atr : Option ℚ := none
  adx : Option ℚ := none
  rsi : Option ℚ := none
  kc_upper : Option ℚ := none
  kc_lower : Option ℚ := none
  price_range_rank : Option ℚ := none
  prr_upside : Option ℚ := none
  prr_downside : Option ℚ := none
deriving DecidableEq, Repr

/-- The per-run mutable state of `TradeEntryEngine`
(entry_engine.py lines 60-61): the trade counter and the set of ISO week
*numbers* already traded (a `set[int]`). -/
structure EngineState where
  tradeCounter : ℕ
  enteredWeeks : Finset ℕ
deriving DecidableEq

/-- The outcome type of `evaluate_bar`: `Trade | RejectedTrade | None`
(entry_engine.py lines 72-82).  The trade carried is the extended record
the construction site attempts to build. -/
inductive EvalResult where
  | trade (t : TradeFull)
  | rejected (r : RejectedTrade)
  | nothing
deriving DecidableEq, Repr

/-- Session-open bound in minutes since midnight
(entry_engine.py lines 65-66). -/
def sessionOpenMinutes (p : StrategyParams) : ℕ :=
  p.session_open_hour * 60 + p.session_open_minute

/-- Session-close bound in minutes since midnight. -/
def sessionCloseMinutes (p : StrategyParams) : ℕ :=
  p.session_close_hour * 60 + p.session_close_minute

/-- `entry_engine._next_friday` (entry_engine.py lines 35-43): the next
Friday on or after the timestamp, normalised to 16:00. -/
def nextFriday (ts : Timestamp) : Timestamp :=
  let wd : ℤ := weekdayMon0 ts.date
  let daysAhead : ℤ := (4 - wd) % 7
  let daysAhead : ℤ := if daysAhead = 0 ∧ wd ≠ 4 then 7 else daysAhead
  ⟨addDays ts.date daysAhead.toNat, ⟨16, 0⟩⟩

/-- The regime router of `evaluate_bar` step 6
(entry_engine.py lines 158, 170, 182): the structure tag selected from ADX
and RSI. -/
def routedStructure (adx rsi : ℚ) : String :=
  if adx ≤ 20 then "iron_condor"
  else if 50 ≤ rsi then "put_credit_spread"
  else "call_credit_spread"

/-- Steps 7 and onward of `evaluate_bar` (entry_engine.py lines 196-235):
the duplicate-week guard, then the state update and the
`Trade(...)` construction.  The counter increment and week marking
(lines 212-213) happen *before* the constructor call, so they survive even
when the construction raises.  The constructor call itself passes the
keyword arguments of `entryTradeKwargNames` to the dataclass whose fields
are `tradeFieldNames`; an unexpected keyword raises `TypeError`. -/
def finishEntry (p : StrategyParams) (st : EngineState) (ts : Timestamp)
    (ema adx rsi prr kcU kcL prrU prrD : ℚ) (structure_ : String) :
    Except PyErr EvalResult × EngineState :=
  if isoWeekNumber ts.date ∈ st.enteredWeeks then
    (.ok (.rejected
      { timestamp := ts
        reason := .DUPLICATE_WEEK
        detail := "Already entered a trade in ISO week "
          ++ toString (isoWeekNumber ts.date)
        adx := some adx
        rsi := some rsi
        price_range_rank := some prr }), st)
  else
    let st' : EngineState :=
      ⟨st.tradeCounter + 1, insert (isoWeekNumber ts.date) st.enteredWeeks⟩
    if acceptsKwargs tradeFieldNames entryTradeKwargNames then
      (.ok (.trade
        { trade_id := st'.tradeCounter
          entry_timestamp := ts
          expiry_date := nextFriday ts
          upper_strike := kcU
          lower_strike := kcL
          credit_received := p.credit_received
          result := .OPEN
          exit_reason := .EXPIRY_WORTHLESS
          entry_adx := adx
          entry_rsi := rsi
          entry_price_range_rank := prr
          entry_ema := ema
          structure_ := structure_
          prr_upside := prrU
          prr_downside := prrD }), st')
    else
      (.error .typeError, st')

/-- `TradeEntryEngine.evaluate_bar` (entry_engine.py lines 72-235): the
ordered fail-fast gate chain.  Gate order and comparison directions follow
the source exactly; indicator values are read with `Option.getD 0`, which
is only reached after the NaN guard has ruled out `none`. -/
def evaluateBar (p : StrategyParams) (blackout : Finset Date)
    (st : EngineState) (row : Row) (ts : Timestamp) :
    Except PyErr EvalResult × EngineState :=
  -- 1. indicator readiness (lines 88-94)
  if row.ema = none ∨ row.atr = none ∨ row.adx = none ∨ row.rsi = none ∨
      row.kc_upper = none ∨ row.kc_lower = none ∨
      row.price_range_rank = none ∨ row.prr_upside = none ∨
      row.prr_downside = none then
    (.ok (.rejected
      { timestamp := ts
        reason := .INDICATORS_NOT_READY
        detail := "One or more indicator columns contain NaN" }), st)
  -- 2. session window, inclusive on both ends (lines 99-105)
  else if ¬(sessionOpenMinutes p ≤ ts.tod.minutesOfDay ∧
      ts.tod.minutesOfDay ≤ sessionCloseMinutes p) then
    (.ok (.rejected
      { timestamp := ts
        reason := .OUTSIDE_SESSION
        detail := "Bar time outside NYSE session" }), st)
  -- 3. blackout membership (lines 110-119)
  else if ts.date ∈ blackout then
    (.ok (.rejected
      { timestamp := ts
        reason := .WITHIN_BLACKOUT_BUFFER
        detail := "Date falls within blackout buffer"
        adx := row.adx
        rsi := row.rsi
        price_range_rank := row.price_range_rank }), st)
  else
    let adx_val := row.adx.getD 0
    -- 4. ADX threshold: reject when strictly above (lines 124-133)
    if p.adx_threshold < adx_val then
      (.ok (.rejected
        { timestamp := ts
          reason := .ADX_TOO_HIGH
          detail := "ADX above threshold"
          adx := some adx_val
          rsi := row.rsi
          price_range_rank := row.price_range_rank }), st)
    else
      let rsi_val := row.rsi.getD 0
      -- 5. RSI bounds, inclusive (lines 138-147)
      if ¬(p.rsi_low ≤ rsi_val ∧ rsi_val ≤ p.rsi_high) then
        (.ok (.rejected
          { timestamp := ts
            reason := .RSI_OUT_OF_RANGE
            detail := "RSI outside bounds"
            adx := some adx_val
            rsi := some rsi_val
            price_range_rank := row.price_range_rank }), st)
      else
        let prr_upside := row.prr_upside.getD 0
        let prr_downside := row.prr_downside.getD 0
        let prr_val := row.price_range_rank.getD 0
        -- 6. regime router + directional-room checks (lines 150-193)
        if adx_val ≤ 20 then
          if prr_upside < p.price_range_rank_min ∨
              prr_downside < p.price_range_rank_min then
            (.ok (.rejected
              { timestamp := ts
                reason := .PRICE_RANGE_RANK_TOO_LOW
                detail := "Iron condor: side-specific PRR below minimum"
                adx := some adx_val
                rsi := some rsi_val
                price_range_rank := some prr_val }), st)
          else
            finishEntry p st ts (row.ema.getD 0) adx_val rsi_val prr_val
              (row.kc_upper.getD 0) (row.kc_lower.getD 0)
              prr_upside prr_downside (routedStructure adx_val rsi_val)
        else if 50 ≤ rsi_val then
          if prr_downside < p.price_range_rank_min then
            (.ok (.rejected
              { timestamp := ts
                reason := .PRICE_RANGE_RANK_TOO_LOW
                detail := "Put spread: PRR_downside below minimum"
                adx := some adx_val
                rsi := some rsi_val
                price_range_rank := some prr_val }), st)
          else
            finishEntry p st ts (row.ema.getD 0) adx_val rsi_val prr_val
              (row.kc_upper.getD 0) (row.kc_lower.getD 0)
              prr_upside prr_downside (routedStructure adx_val rsi_val)
        else
          if prr_upside < p.price_range_rank_min then
            (.ok (.rejected
              { timestamp := ts
                reason := .PRICE_RANGE_RANK_TOO_LOW
                detail := "Call spread: PRR_upside below minimum"
                adx := some adx_val
                rsi := some rsi_val
                price_range_rank := some prr_val }), st)
          else
            finishEntry p st ts (row.ema.getD 0) adx_val rsi_val prr_val
              (row.kc_upper.getD 0) (row.kc_lower.getD 0)
              prr_upside prr_downside (routedStructure adx_val rsi_val)

/- ----------------------------------------------------------------------
exit_engine.py
---------------------------------------------------------------------- -/

/-- Python attribute access `self.params.wing_width`
(exit_engine.py line 124).  `models.StrategyParams` (models.py lines
54-80) declares no `wing_width` field, so the lookup raises
`AttributeError`. -/
def getWingWidth (_p : StrategyParams) : Except PyErr ℚ :=
  .error .attributeError

/-- `TradeExitEngine._close` (exit_engine.py lines 109-134): a closed copy
of the trade with P&L resolved.  On a breach reason the realised loss is
`params.wing_width - trade.credit_received`; the conditional expression on
line 124 only evaluates the `wing_width` attribute when the reason is a
breach. -/
def closeTrade (p : StrategyParams) (t : TradeFull) (exitTs : Timestamp)
    (reason : ExitReason) : Except PyErr TradeFull := do
  let isLoss := reason = ExitReason.BREACH_SHORT_CALL ∨
    reason = ExitReason.BREACH_SHORT_PUT
  let loss_realised ← if isLoss then do
      let w ← getWingWidth p
      pure (w - t.credit_received)
    else pure 0
  let pnl := t.credit_received - loss_realised
  pure { t with
    result := if isLoss then .LOSS else .WIN
    exit_reason := reason
    exit_timestamp := some exitTs
    loss_realised := loss_realised
    pnl := pnl }

/-- The structure-aware breach decision of `TradeExitEngine.resolve`
(exit_engine.py lines 72-94): which `_close` reason, if any, the bar
triggers.  Comparisons are strict (`>` upper, `<` lower); for the
iron-condor and fallback branches the call side is tested first. -/
def breachReason (t : TradeFull) (high low : ℚ) : Option ExitReason :=
  if t.structure_ = "iron_condor" then
    if t.upper_strike < high then some .BREACH_SHORT_CALL
    else if low < t.lower_strike then some .BREACH_SHORT_PUT
    else none
  else if t.structure_ = "call_credit_spread" then
    if t.upper_strike < high then some .BREACH_SHORT_CALL
    else none
  else if t.structure_ = "put_credit_spread" then
    if low < t.lower_strike then some .BREACH_SHORT_PUT
    else none
  else
    -- fallback for unknown tags (lines 89-94): treat as iron condor
    if t.upper_strike < high then some .BREACH_SHORT_CALL
    else if low < t.lower_strike then some .BREACH_SHORT_PUT
    else none

/-- `TradeExitEngine.resolve` (exit_engine.py lines 49-103): breach
detection first, then the expiry check `timestamp.date() >=
trade.expiry_date.date()` (line 99); `.ok none` is Python's `return None`
(no exit this bar). -/
def resolve (p : StrategyParams) (t : TradeFull) (row : Row)
    (ts : Timestamp) : Except PyErr (Option TradeFull) :=
  match breachReason t row.high row.low with
  | some r => (closeTrade p t ts r).map some
  | none =>
    if dateLe t.expiry_date.date ts.date then
      (closeTrade p t ts .EXPIRY_WORTHLESS).map some
    else
      .ok none

/- ----------------------------------------------------------------------
runner.py
---------------------------------------------------------------------- -/

/-- The loop state of `BacktestRunner.run` (runner.py lines 63-95):
entry-engine state, the single open-trade slot, and the accumulated
trade and rejection lists. -/
structure LoopState where
  entrySt : EngineState
  openTrade : Option TradeFull
  trades : List TradeFull
  rejected : List RejectedTrade

/-- One iteration of the bar loop (runner.py lines 69-95): with an open
position only the exit engine runs (entry evaluation is skipped, lines
73-80); when idle the entry engine runs and its three outcomes are
dispatched (lines 85-95). -/
def stepBar (p : StrategyParams) (blackout : Finset Date) (ls : LoopState)
    (bar : Timestamp × Row) : Except PyErr LoopState :=
  match ls.openTrade with
  | some t => do
    let closed ← resolve p t bar.2 bar.1
    match closed with
    | some c => pure { ls with openTrade := none, trades := ls.trades ++ [c] }
    | none => pure ls
  | none =>
    let (res, st') := evaluateBar p blackout ls.entrySt bar.2 bar.1
    do
      let r ← res
      match r with
      | .trade t => pure { ls with entrySt := st', openTrade := some t }
      | .rejected rj =>
        pure { ls with entrySt := st', rejected := ls.rejected ++ [rj] }
      | .nothing => pure { ls with entrySt := st' }

/-- The end-of-data force-close of `BacktestRunner.run`
(runner.py lines 100-113): close the still-open position at the last bar's
timestamp as a WIN with zero realised loss and full credit.  Line 108
reads the enum member `ExitReason.EXPIRY`; member lookup is modelled by
`exitReasonMember`, and a missing member is Python's `AttributeError`. -/
def forceCloseAtEnd (t : TradeFull) (lastTs : Timestamp) :
    Except PyErr TradeFull :=
  match exitReasonMember "EXPIRY" with
  | some r =>
    .ok { t with
      result := .WIN
      exit_reason := r
      exit_timestamp := some lastTs
      loss_realised := 0
      pnl := t.credit_received }
  | none => .error .attributeError

/-- `BacktestRunner.run` (runner.py lines 63-121) up to the analytics pass:
the strict in-order bar loop followed by the end-of-data rule. -/
def runBacktest (p : StrategyParams) (blackout : Finset Date)
    (bars : List (Timestamp × Row)) :
    Except PyErr (List TradeFull × List RejectedTrade) := do
  let final ← bars.foldlM (stepBar p blackout) ⟨⟨0, ∅⟩, none, [], []⟩
  match final.openTrade, bars.getLast? with
  | some t, some lastBar => do
    let c ← forceCloseAtEnd t lastBar.1
    pure (final.trades ++ [c], final.rejected)
  | _, _ => pure (final.trades, final.rejected)

/- ----------------------------------------------------------------------
engine.py (analytics)
---------------------------------------------------------------------- -/

/-- Round half to even at integer resolution, the rounding of
`numpy.round` / Python's `round` (applied here to exact rationals). -/
def roundHalfEven (x : ℚ) : ℤ :=
  let f := ⌊x⌋
  let r := x - f
  if r < 1/2 then f
  else if 1/2 < r then f + 1
  else if Even f then f else f + 1

/-- Python `round(x, 4)`. -/
def round4 (x : ℚ) : ℚ :=
  (roundHalfEven (x * 10000) : ℚ) / 10000

/-- The equity-curve loop of `AnalyticsEngine.summarise`
(engine.py lines 50-57): the running P&L accumulates unrounded and each
appended point is rounded to 4 decimals. -/
def equityCurve (trades : List Trade) : List ℚ :=
  go 0 trades
where
  go (running : ℚ) : List Trade → List ℚ
    | [] => []
    | t :: ts =>
      let running' := running + t.pnl
      round4 running' :: go running' ts

/-- The loop body of `AnalyticsEngine._max_drawdown`
(engine.py lines 97-106): walk the equity points carrying the running
peak and the largest drawdown so far. -/
def maxDdGo (peak maxDd : ℚ) : List ℚ → ℚ
  | [] => maxDd
  | v :: vs =>
    let peak' := if peak < v then v else peak
    let dd := peak' - v
    let maxDd' := if maxDd < dd then dd else maxDd
    maxDdGo peak' maxDd' vs

/-- `AnalyticsEngine._max_drawdown` (engine.py lines 82-106): 0 for an
empty series, otherwise the loop over `[0] + equity` with
`peak = full[0] = 0` and `max_dd = 0`. -/
def maxDrawdown (equity : List ℚ) : ℚ :=
  if equity = [] then 0
  else maxDdGo 0 0 equity

/-- Running maxima: `peaksFrom peak xs` lists, for each position of `xs`,
the maximum value seen so far (starting from `peak`, inclusive of the
current element). -/
def peaksFrom (peak : ℚ) : List ℚ → List ℚ
  | [] => []
  | x :: xs => max peak x :: peaksFrom (max peak x) xs

/-- Drawdown per the specification text: the largest value of
`peak - value` over the series `[0] + equity`, where `peak` is the running
maximum seen so far.  (The prepended 0 contributes the drawdown 0, which
is the fold's base.) -/
def ddSpec (equity : List ℚ) : ℚ :=
  (List.zipWith (fun pk v => pk - v) (peaksFrom 0 equity) equity).foldl max 0

/- ----------------------------------------------------------------------
blackout.py
---------------------------------------------------------------------- -/

/-- One expanded blackout range (blackout.py lines 59-65): inclusive start
and end days plus the reason.  Calendar days are modelled as integers
(`date.toordinal`); `date ± timedelta(days)` is integer addition. -/
structure BlackoutRange where
  start : ℤ
  stop : ℤ
  reason : String
deriving DecidableEq, Repr

/-- The overlap double loop of `BlackoutFilter.expand`
(blackout.py lines 68-77): for every pair `i < j` whose inclusive ranges
intersect (`s_i ≤ e_j and s_j ≤ e_i`), one warning naming both reasons.
Numeric window bounds are elided from the message text. -/
def overlapWarnings : List BlackoutRange → List String
  | [] => []
  | r :: rs =>
    (rs.filterMap fun r2 =>
      if r.start ≤ r2.stop ∧ r2.start ≤ r.stop then
        some ("Blackout overlap: " ++ r.reason ++ " and " ++ r2.reason)
      else none) ++ overlapWarnings rs

/-- The union loop of `BlackoutFilter.expand` (blackout.py lines 80-85):
every calendar day of every inclusive range.  The Python `while` loop adds
the days one by one; as a set this is the union of the closed intervals
(fold order is immaterial for a union). -/
def blockedDates : List BlackoutRange → Finset ℤ
  | [] => ∅
  | r :: rs => Finset.Icc r.start r.stop ∪ blockedDates rs

/-- `BlackoutFilter.expand` (blackout.py lines 31-87): empty input yields
the empty set and no warnings; otherwise build the buffered ranges, the
pairwise overlap warnings, and the blocked-date union. -/
def blackoutExpand (events : List (ℤ × String)) (daysBefore daysAfter : ℤ) :
    Finset ℤ × List String :=
  if events = [] then (∅, [])
  else
    let ranges := events.map fun e =>
      BlackoutRange.mk (e.1 - daysBefore) (e.1 + daysAfter) e.2
    (blockedDates ranges, overlapWarnings ranges)

/- ----------------------------------------------------------------------
indicators.py
---------------------------------------------------------------------- -/

/-- One raw OHLC bar as the indicator pipeline reads it. -/
structure PriceBar where
  high : ℚ
  low : ℚ
  close : ℚ
deriving DecidableEq, Repr

/-- Row-wise maximum of two NaN-able cells, as pandas
`DataFrame.max(axis=1)` (default `skipna=True`): NaN cells are skipped and
the result is NaN only when every cell is NaN. -/
def naMax2 (a b : Option ℚ) : Option ℚ :=
  match a, b with
  | none, y => y
  | some x, none => some x
  | some x, some y => some (max x y)

/-- Row-wise skipna maximum of the three true-range candidate columns. -/
def naMax3 (a b c : Option ℚ) : Option ℚ :=
  naMax2 (naMax2 a b) c

/-- The true-range column of `TechnicalIndicators._add_atr`
(indicators.py lines 72-84): per bar, the skipna row-maximum of
`High - Low`, `|High - prevClose|` and `|Low - prevClose|`, where
`prevClose` is `Close.shift(1)` (NaN on bar 0). -/
def trueRangeSeries (bars : List PriceBar) : List (Option ℚ) :=
  match bars with
  | [] => []
  | b0 :: rest =>
    naMax3 (some (b0.high - b0.low)) none none :: go b0 rest
where
  go (prev : PriceBar) : List PriceBar → List (Option ℚ)
    | [] => []
    | b :: bs =>
      naMax3 (some (b.high - b.low)) (some |b.high - prev.close|)
        (some |b.low - prev.close|) :: go b bs

/-- The true-range column as the specification words it, with the bar-0
value forced by the skipna maximum: bar 0 carries `High - Low`, every
later bar the full three-way maximum. -/
def specTrueRange (bars : List PriceBar) : List ℚ :=
  match bars with
  | [] => []
  | b0 :: rest => (b0.high - b0.low) :: go b0 rest
where
  go (prev : PriceBar) : List PriceBar → List ℚ
    | [] => []
    | b :: bs =>
      max (b.high - b.low) (max |b.high - prev.close| |b.low - prev.close|)
        :: go b bs

/-- pandas `Series.ewm(span=s, adjust=False).mean()` on a fully defined
series: the first value seeds the accumulator and each later value updates
it by `y = (1-α)·y + α·x` with `α = 2/(s+1)` (here the smoothing factor is
passed directly). -/
def ewmMean (α : ℚ) : List ℚ → List ℚ
  | [] => []
  | x :: xs => x :: go x xs
where
  go (y : ℚ) : List ℚ → List ℚ
    | [] => []
    | x :: xs =>
      let y' := (1 - α) * y + α * x
      y' :: go y' xs

/-- The ATR column of `TechnicalIndicators._add_atr`
(indicators.py line 86): the exponential smoothing of the true-range
column.  The TR column carries no NaN (its bar-0 cell is `High - Low`), so
the plain recursion applies; `getD` only discharges the `Option`. -/
def atrSeries (period : ℕ) (bars : List PriceBar) : List ℚ :=
  ewmMean (2 / (period + 1)) ((trueRangeSeries bars).map (·.getD 0))

/-- The EMA column of `TechnicalIndicators._add_ema`
(indicators.py line 64): exponential smoothing of Close with
`span = period`, `adjust=False`. -/
def emaSeries (period : ℕ) (bars : List PriceBar) : List ℚ :=
  ewmMean (2 / (period + 1)) (bars.map (·.close))

/-- The `KC_Upper` column of `TechnicalIndicators._add_keltner`
(indicators.py line 169): `(EMA + multiplier·ATR).round(0)`. -/
def kcUpperSeries (emaPeriod atrPeriod : ℕ) (mult : ℚ)
    (bars : List PriceBar) : List ℚ :=
  List.zipWith (fun e a => ((roundHalfEven (e + mult * a) : ℤ) : ℚ))
    (emaSeries emaPeriod bars) (atrSeries atrPeriod bars)

/-- The `KC_Lower` column of `TechnicalIndicators._add_keltner`
(indicators.py line 170): `(EMA - multiplier·ATR).round(0)`. -/
def kcLowerSeries (emaPeriod atrPeriod : ℕ) (mult : ℚ)
    (bars : List PriceBar) : List ℚ :=
  List.zipWith (fun e a => ((roundHalfEven (e - mult * a) : ℤ) : ℚ))
    (emaSeries emaPeriod bars) (atrSeries atrPeriod bars)
/- ----------------------------------------------------------------------
Concrete inputs used by theorems and witnesses
---------------------------------------------------------------------- -/

/-- Parameters for the fully-qualifying entry example: the defaults with
an integer range-rank minimum (the comparison values stay on the entry
path; the claims fix no particular configuration). -/
def c1Params : StrategyParams :=
  { defaultParams with price_range_rank_min := 1 }

/-- The specification's end-to-end entry bar: ADX = 20, RSI = 50, both
side-specific range ranks at the configured minimum, Keltner strikes
5050/4950. -/
def c1Row : Row :=
  { high := 5020, low := 4980, close := 5010, ema := some 5000,
    atr := some 25, adx := some 20, rsi := some 50, kc_upper := some 5050,
    kc_lower := some 4950, price_range_rank := some 1,
    prr_upside := some 1, prr_downside := some 1 }

/-- Wednesday 2024-01-10 10:00, inside the NYSE session, ISO week 2. -/
def c1Ts : Timestamp := ⟨⟨2024, 1, 10⟩, ⟨10, 0⟩⟩

/-- An open iron-condor trade with strikes 5050/4950 expiring Friday
2024-01-12, as the exit-engine tests (test_exit_engine.py) set one up. -/
def c4Trade : TradeFull :=
  { trade_id := 1
    entry_timestamp := ⟨⟨2024, 1, 10⟩, ⟨10, 0⟩⟩
    expiry_date := ⟨⟨2024, 1, 12⟩, ⟨16, 0⟩⟩
    upper_strike := 5050
    lower_strike := 4950
    credit_received := 1
    result := .OPEN
    exit_reason := .EXPIRY_WORTHLESS
    structure_ := "iron_condor"
    prr_upside := 1
    prr_downside := 1 }

/-- Thursday 2024-01-11 11:00, one day before `c4Trade`'s expiry. -/
def c4Ts : Timestamp := ⟨⟨2024, 1, 11⟩, ⟨11, 0⟩⟩

/-- A bar qualifying on every gate of the default parameters (range ranks
1 ≥ 0.3), used for the duplicate-week claim. -/
def c9Row : Row :=
  { high := 5020, low := 4980, close := 5010, ema := some 5000,
    atr := some 25, adx := some 20, rsi := some 50, kc_upper := some 5050,
    kc_lower := some 4950, price_range_rank := some 1,
    prr_upside := some 1, prr_downside := some 1 }

/-- Wednesday 2025-01-08 10:00: ISO week number 2 of 2025, the same week
*number* as 2024-01-10 one calendar year earlier. -/
def c9Ts : Timestamp := ⟨⟨2025, 1, 8⟩, ⟨10, 0⟩⟩

/- ----------------------------------------------------------------------
Helper lemmas
---------------------------------------------------------------------- -/

/-- The loop's peak update `if peak < v then v else peak` is `max`. -/
lemma ite_lt_eq_max (a b : ℚ) : (if a < b then b else a) = max a b := by
  rcases lt_or_le a b with h | h
  · simp [h, max_eq_right h.le]
  · simp [not_lt.mpr h, max_eq_left h]

/-- The drawdown loop equals a `max`-fold over the pointwise
`peak - value` list built from the running maxima. -/
lemma maxDdGo_eq_foldl :
    ∀ (xs : List ℚ) (peak m : ℚ),
      maxDdGo peak m xs =
        (List.zipWith (fun pk v => pk - v) (peaksFrom peak xs) xs).foldl max m := by
  intro xs
  induction xs with
  | nil => intro peak m; rfl
  | cons v vs ih =>
    intro peak m
    rw [maxDdGo]
    simp only [ite_lt_eq_max, peaksFrom, List.zipWith, List.foldl]
    rw [ih]

/-- A `max`-fold never drops below its initial value. -/
lemma le_foldl_max : ∀ (l : List ℚ) (m : ℚ), m ≤ l.foldl max m := by
  intro l
  induction l with
  | nil => intro m; exact le_rfl
  | cons x xs ih =>
    intro m
    calc m ≤ max m x := le_max_left m x
    _ ≤ xs.foldl max (max m x) := ih (max m x)

/-- With degenerate one-day ranges the union loop returns exactly the
event dates. -/
lemma blockedDates_singletons :
    ∀ events : List (ℤ × String),
      blockedDates (events.map fun e => BlackoutRange.mk e.1 e.1 e.2)
        = (events.map Prod.fst).toFinset := by
  intro events
  induction events with
  | nil => rfl
  | cons e es ih =>
    simp only [List.map_cons, blockedDates, ih, Finset.Icc_self,
      List.toFinset_cons]
    rw [Finset.insert_eq]

/-- With degenerate one-day ranges and pairwise-distinct event dates, the
overlap double loop emits nothing: two one-day ranges intersect only when
their dates coincide. -/
lemma overlapWarnings_singletons_nil :
    ∀ events : List (ℤ × String),
      (events.map Prod.fst).Nodup →
      overlapWarnings (events.map fun e =>
        BlackoutRange.mk e.1 e.1 e.2) = [] := by
  intro events
  induction events with
  | nil => intro _; rfl
  | cons e es ih =>
    intro hnd
    rw [List.map_cons] at hnd
    rcases List.nodup_cons.mp hnd with ⟨hnotin, hnd'⟩
    simp only [List.map_cons, overlapWarnings]
    rw [ih hnd', List.append_nil]
    refine List.filterMap_eq_nil_iff.mpr ?_
    intro r hr
    rcases List.mem_map.mp hr with ⟨e2, he2, rfl⟩
    have hne : e.1 ≠ e2.1 := by
      intro hEq
      exact hnotin (hEq ▸ List.mem_map_of_mem Prod.fst he2)
    have hcond : ¬(e.1 ≤ e2.1 ∧ e2.1 ≤ e.1) := by
      intro h
      exact hne (le_antisymm h.1 h.2)
    simp only [hcond, if_false]

/-- The per-bar skipna maximum rewrites the three defined candidates into
a plain three-way maximum, matching the spec-worded true-range list. -/
lemma trueRange_go_eq_spec (prev : PriceBar) :
    ∀ bs : List PriceBar,
      trueRangeSeries.go prev bs = (specTrueRange.go prev bs).map some := by
  intro bs
  induction bs generalizing prev with
  | nil => rfl
  | cons b rest ih =>
    simp only [trueRangeSeries.go, specTrueRange.go, List.map_cons, ih,
      naMax3, naMax2, max_assoc]

/-- The code's true-range column is everywhere defined and equals the
spec-worded column: bar 0 carries `High − Low` because the skipna row
maximum ignores the two NaN candidates. -/
lemma trueRange_eq_spec :
    ∀ bars : List PriceBar,
      trueRangeSeries bars = (specTrueRange bars).map some := by
  intro bars
  cases bars with
  | nil => rfl
  | cons b0 rest =>
    simp only [trueRangeSeries, specTrueRange, List.map_cons,
      trueRange_go_eq_spec, naMax3, naMax2]

/-- The ATR pipeline smooths exactly the spec-worded true-range column:
discharging the `Option` wrapper is the identity because the column is
everywhere defined. -/
lemma atrSeries_eq_ewm_spec (period : ℕ) (bars : List PriceBar) :
    atrSeries period bars = ewmMean (2 / (period + 1)) (specTrueRange bars) := by
  rw [atrSeries, trueRange_eq_spec bars, List.map_map]
  have hid : ((fun x : Option ℚ => x.getD 0) ∘ some) = id := by
    funext x
    rfl
  rw [hid, List.map_id]

/- ----------------------------------------------------------------------
Claim theorems
---------------------------------------------------------------------- -/

/-- C5.  The Analytics Summarizer's maximum drawdown equals, for every
closed-trade P&L (equity) sequence, the largest value of (running maximum
minus current value) over the cumulative equity series with an implicit 0
prepended; it is nonnegative, 0 for the empty list, and takes the values
2, 0 and 0 on the three worked examples of the specification. -/
theorem max_drawdown_spec_and_examples :
    (∀ equity : List ℚ, maxDrawdown equity = ddSpec equity)
    ∧ (∀ equity : List ℚ, 0 ≤ maxDrawdown equity)
    ∧ maxDrawdown [] = 0
    ∧ maxDrawdown [1, 3, 1, 2] = 2
    ∧ maxDrawdown [1, 2, 3, 4] = 0 := by
  have hEq : ∀ equity : List ℚ, maxDrawdown equity = ddSpec equity := by
    intro equity
    cases equity with
    | nil => rfl
    | cons v vs =>
      rw [maxDrawdown, if_neg (List.cons_ne_nil v vs), ddSpec,
        maxDdGo_eq_foldl]
  refine ⟨hEq, ?_, rfl, ?_, ?_⟩
  · intro equity
    rw [hEq equity, ddSpec]
    exact le_foldl_max _ 0
  · rw [maxDrawdown, if_neg (List.cons_ne_nil _ _)]
    norm_num [maxDdGo]
  · rw [maxDrawdown, if_neg (List.cons_ne_nil _ _)]
    norm_num [maxDdGo]

/-- C6 counterexample.  Two events on the same date with zero buffers:
the blocked set is exactly the event dates, yet the overlap loop emits a
warning, refuting "returns no overlap warnings" for every events input. -/
theorem blackout_zero_buffer_warning_cex :
    (blackoutExpand [(0, "CPI"), (0, "GDP")] 0 0).2 ≠ []
    ∧ (blackoutExpand [(0, "CPI"), (0, "GDP")] 0 0).1 = {0} := by
  constructor
  · decide
  · decide

/-- C6 amended.  With `days_before = days_after = 0` the blocked set is
exactly the set of event dates; and when the event dates are pairwise
distinct, no overlap warnings are returned (two events sharing a date do
warn, as the counterexample shows). -/
theorem blackout_zero_buffer_amended :
    ∀ events : List (ℤ × String),
      (blackoutExpand events 0 0).1 = (events.map Prod.fst).toFinset
      ∧ ((events.map Prod.fst).Nodup → (blackoutExpand events 0 0).2 = []) := by
  intro events
  cases events with
  | nil => exact ⟨rfl, fun _ => rfl⟩
  | cons e es =>
    constructor
    · rw [blackoutExpand, if_neg (List.cons_ne_nil e es)]
      simp only [sub_zero, add_zero]
      exact blockedDates_singletons (e :: es)
    · intro hnd
      rw [blackoutExpand, if_neg (List.cons_ne_nil e es)]
      simp only [sub_zero, add_zero]
      exact overlapWarnings_singletons_nil (e :: es) hnd

/-- C6 witness: the amended claim applied to two distinct event dates. -/
theorem blackout_zero_buffer_witness :
    (blackoutExpand [(5, "CPI"), (9, "FOMC")] 0 0).1 = ({5, 9} : Finset ℤ)
    ∧ (blackoutExpand [(5, "CPI"), (9, "FOMC")] 0 0).2 = [] := by
  have h := blackout_zero_buffer_amended [(5, "CPI"), (9, "FOMC")]
  refine ⟨?_, h.2 (by decide)⟩
  rw [h.1]
  decide

/-- C7 counterexample.  On a one-bar series the true-range cell of bar 0
is `some (High − Low)` — pandas' skipna row maximum ignores the missing
previous close — not the NaN the claim asserts. -/
theorem true_range_bar0_defined_cex :
    trueRangeSeries [PriceBar.mk 3 1 2] = [some 2]
    ∧ trueRangeSeries [PriceBar.mk 3 1 2] ≠ [none] := by
  constructor
  · norm_num [trueRangeSeries, trueRangeSeries.go, naMax3, naMax2]
  · norm_num [trueRangeSeries, trueRangeSeries.go, naMax3, naMax2]
    exact Option.some_ne_none _

/-- C7 amended.  The true-range column is everywhere defined: bar 0
carries `High − Low` (the two previous-close candidates are NaN and the
row maximum skips them), every later bar carries
`max(High−Low, |High−prevClose|, |Low−prevClose|)`; the ATR column is the
exponential smoothing (`span = period`, `adjust=False`) of that column. -/
theorem true_range_atr_amended :
    ∀ (bars : List PriceBar) (period : ℕ),
      trueRangeSeries bars = (specTrueRange bars).map some
      ∧ atrSeries period bars = ewmMean (2 / (period + 1)) (specTrueRange bars) := by
  intro bars period
  exact ⟨trueRange_eq_spec bars, atrSeries_eq_ewm_spec period bars⟩

/-- C2.  The end-of-data force-close of `BacktestRunner.run` reads the
enum member `ExitReason.EXPIRY`, which `models.ExitReason` does not
define; the step therefore raises `AttributeError` instead of appending
the claimed final WIN trade. -/
theorem force_close_missing_expiry_member :
    (∀ (t : TradeFull) (ts : Timestamp),
      forceCloseAtEnd t ts = .error .attributeError)
    ∧ exitReasonMember "EXPIRY" = none
    ∧ "EXPIRY" ∉ exitReasonMemberNames := by
  refine ⟨fun t ts => ?_, by decide, by decide⟩
  rfl

/-- C3.  `TradeExitEngine._close` on a breach reason evaluates
`self.params.wing_width`, an attribute `models.StrategyParams` does not
declare, so every breach close raises `AttributeError` instead of
returning the claimed LOSS trade with loss `wing width − credit`; the
non-breach (expiry) close never touches the attribute and returns the
fully populated WIN copy, the open instance being unchanged by
construction. -/
theorem breach_close_missing_wing_width :
    ∀ (p : StrategyParams) (t : TradeFull) (ts : Timestamp),
      closeTrade p t ts .BREACH_SHORT_CALL = .error .attributeError
      ∧ closeTrade p t ts .BREACH_SHORT_PUT = .error .attributeError
      ∧ closeTrade p t ts .EXPIRY_WORTHLESS =
          .ok { t with
                result := .WIN
                exit_reason := .EXPIRY_WORTHLESS
                exit_timestamp := some ts
                loss_realised := 0
                pnl := t.credit_received } := by
  intro p t ts
  refine ⟨rfl, rfl, ?_⟩
  simp [closeTrade]
  rfl

/-- A call-side breach verdict always comes from the strict comparison
`upper_strike < High`, whatever the structure tag. -/
lemma breachReason_call_imp (t : TradeFull) (hi lo : ℚ) :
    breachReason t hi lo = some .BREACH_SHORT_CALL → t.upper_strike < hi := by
  unfold breachReason
  split_ifs <;> intro h <;> first | assumption | simp at h

/-- A put-side breach verdict always comes from the strict comparison
`Low < lower_strike`, whatever the structure tag. -/
lemma breachReason_put_imp (t : TradeFull) (hi lo : ℚ) :
    breachReason t hi lo = some .BREACH_SHORT_PUT → lo < t.lower_strike := by
  unfold breachReason
  split_ifs <;> intro h <;> first | assumption | simp at h

/-- A bar whose High and Low both stay weakly inside the strikes never
breaches, whatever the structure tag. -/
lemma breachReason_none_of_within (t : TradeFull) (hi lo : ℚ)
    (h1 : hi ≤ t.upper_strike) (h2 : t.lower_strike ≤ lo) :
    breachReason t hi lo = none := by
  unfold breachReason
  split_ifs with ha hb hc hd he hf hg hh <;>
    first
      | rfl
      | exact absurd (by assumption : t.upper_strike < hi) (not_lt.mpr h1)
      | exact absurd (by assumption : lo < t.lower_strike) (not_lt.mpr h2)

/-- C4.  The breach test is strict on both sides — a bar whose High
exactly equals the upper strike never yields a call-side verdict, a bar
whose Low exactly equals the lower strike never yields a put-side verdict,
and within-strike bars before expiry make `resolve` return no exit — and
when an iron-condor bar breaches both strikes the call side is the
verdict. -/
theorem breach_strict_and_call_precedence :
    ∀ (p : StrategyParams) (t : TradeFull) (row : Row) (ts : Timestamp),
      (row.high = t.upper_strike →
        breachReason t row.high row.low ≠ some .BREACH_SHORT_CALL)
      ∧ (row.low = t.lower_strike →
        breachReason t row.high row.low ≠ some .BREACH_SHORT_PUT)
      ∧ (t.structure_ = "iron_condor" → t.upper_strike < row.high →
        row.low < t.lower_strike →
        breachReason t row.high row.low = some .BREACH_SHORT_CALL)
      ∧ (row.high ≤ t.upper_strike → t.lower_strike ≤ row.low →
        ¬ dateLe t.expiry_date.date ts.date →
        resolve p t row ts = .ok none) := by
  intro p t row ts
  refine ⟨?_, ?_, ?_, ?_⟩
  · intro h hc
    have := breachReason_call_imp t row.high row.low hc
    rw [h] at this
    exact lt_irrefl _ this
  · intro h hc
    have := breachReason_put_imp t row.high row.low hc
    rw [h] at this
    exact lt_irrefl _ this
  · intro hs h1 h2
    rw [breachReason, if_pos hs, if_pos h1]
  · intro h1 h2 hexp
    rw [resolve, breachReason_none_of_within t row.high row.low h1 h2]
    simp only [if_neg hexp]

/-- C4 witness: the theorem at the exit-engine tests' concrete trade —
High equal to 5050 does not breach the call side, Low equal to 4950 does
not breach the put side, a within-strike bar before expiry returns no
exit, and a 5100/4900 double breach resolves to the call side. -/
theorem breach_strict_witness :
    breachReason c4Trade (5050 : ℚ) (4970 : ℚ) ≠ some .BREACH_SHORT_CALL
    ∧ breachReason c4Trade (5030 : ℚ) (4950 : ℚ) ≠ some .BREACH_SHORT_PUT
    ∧ breachReason c4Trade (5100 : ℚ) (4900 : ℚ) = some .BREACH_SHORT_CALL
    ∧ resolve defaultParams c4Trade { high := 5050, low := 4950 } c4Ts
        = .ok none := by
  refine ⟨?_, ?_, ?_, ?_⟩
  · exact (breach_strict_and_call_precedence defaultParams c4Trade
      { high := 5050, low := 4970 } c4Ts).1 rfl
  · exact (breach_strict_and_call_precedence defaultParams c4Trade
      { high := 5030, low := 4950 } c4Ts).2.1 rfl
  · exact (breach_strict_and_call_precedence defaultParams c4Trade
      { high := 5100, low := 4900 } c4Ts).2.2.1 rfl (by norm_num [c4Trade])
      (by norm_num [c4Trade])
  · exact (breach_strict_and_call_precedence defaultParams c4Trade
      { high := 5050, low := 4950 } c4Ts).2.2.2 (by norm_num [c4Trade])
      (by norm_num [c4Trade]) (by decide)

/-- C1.  The regime router selects `iron_condor` when ADX ≤ 20,
`put_credit_spread` when ADX > 20 and RSI ≥ 50, and `call_credit_spread`
otherwise; but the end-to-end half of the claim fails: on the
specification's fully-qualifying bar (ADX = 20, RSI = 50, both range
ranks at the minimum) `evaluate_bar` reaches the `Trade(...)` call, whose
keyword arguments include `structure`, `prr_upside` and `prr_downside` —
names the `models.Trade` dataclass does not declare — so the call raises
`TypeError` (with the trade counter and week set already mutated) instead
of returning the claimed open iron-condor trade. -/
theorem entry_router_and_trade_construction :
    (∀ adx rsi : ℚ,
      (adx ≤ 20 → routedStructure adx rsi = "iron_condor")
      ∧ (20 < adx → 50 ≤ rsi → routedStructure adx rsi = "put_credit_spread")
      ∧ (20 < adx → rsi < 50 → routedStructure adx rsi = "call_credit_spread"))
    ∧ acceptsKwargs tradeFieldNames entryTradeKwargNames = false
    ∧ evaluateBar c1Params ∅ ⟨0, ∅⟩ c1Row c1Ts
        = (.error .typeError, ⟨1, {2}⟩) := by
  refine ⟨?_, by decide, by rfl⟩
  intro adx rsi
  refine ⟨fun h => ?_, fun h1 h2 => ?_, fun h1 h2 => ?_⟩
  · rw [routedStructure, if_pos h]
  · rw [routedStructure, if_neg (not_le.mpr h1), if_pos h2]
  · rw [routedStructure, if_neg (not_le.mpr h1), if_neg (not_le.mpr h2)]

/-- C1 witness: the router at one concrete point of each regime. -/
theorem entry_router_witness :
    routedStructure 18 55 = "iron_condor"
    ∧ routedStructure 25 60 = "put_credit_spread"
    ∧ routedStructure 25 40 = "call_credit_spread" :=
  ⟨(entry_router_and_trade_construction.1 18 55).1 (by norm_num),
   (entry_router_and_trade_construction.1 25 60).2.1 (by norm_num) (by norm_num),
   (entry_router_and_trade_construction.1 25 40).2.2 (by norm_num) (by norm_num)⟩

/-- C9.  The duplicate-week guard keys on the ISO week *number* alone:
whenever a bar passes the readiness, session, blackout, ADX, RSI and
directional-room gates but its ISO week number is already in the engine's
`_entered_weeks` set — regardless of which year put it there — the bar is
rejected with the duplicate-week reason and the state is unchanged. -/
theorem duplicate_week_ignores_iso_year
    (p : StrategyParams) (bl : Finset Date) (st : EngineState)
    (ts : Timestamp) (hi lo cl ema atr adx rsi kcU kcL prr prrU prrD : ℚ)
    (h_sess : sessionOpenMinutes p ≤ ts.tod.minutesOfDay ∧
      ts.tod.minutesOfDay ≤ sessionCloseMinutes p)
    (h_bl : ts.date ∉ bl)
    (h_adx : adx ≤ p.adx_threshold)
    (h_rsi : p.rsi_low ≤ rsi ∧ rsi ≤ p.rsi_high)
    (h_route :
      (adx ≤ 20 ∧ ¬(prrU < p.price_range_rank_min ∨
        prrD < p.price_range_rank_min))
      ∨ (¬adx ≤ 20 ∧ 50 ≤ rsi ∧ ¬prrD < p.price_range_rank_min)
      ∨ (¬adx ≤ 20 ∧ ¬(50:ℚ) ≤ rsi ∧ ¬prrU < p.price_range_rank_min))
    (h_week : isoWeekNumber ts.date ∈ st.enteredWeeks) :
    evaluateBar p bl st
      { high := hi, low := lo, close := cl, ema := some ema,
        atr := some atr, adx := some adx, rsi := some rsi,
        kc_upper := some kcU, kc_lower := some kcL,
        price_range_rank := some prr, prr_upside := some prrU,
        prr_downside := some prrD } ts
      = (.ok (.rejected
          { timestamp := ts
            reason := .DUPLICATE_WEEK
            detail := "Already entered a trade in ISO week "
              ++ toString (isoWeekNumber ts.date)
            adx := some adx
            rsi := some rsi
            price_range_rank := some prr }), st) := by
  simp only [evaluateBar, Option.getD_some]
  rw [if_neg (by simp)]
  rw [if_neg (not_not_intro h_sess)]
  rw [if_neg h_bl]
  rw [if_neg (not_lt.mpr h_adx)]
  rw [if_neg (not_not_intro h_rsi)]
  rcases h_route with ⟨h20, hprr⟩ | ⟨h20, h50, hprr⟩ | ⟨h20, h50, hprr⟩
  · rw [if_pos h20, if_neg hprr]
    simp only [finishEntry]
    rw [if_pos h_week]
  · rw [if_neg h20, if_pos h50, if_neg hprr]
    simp only [finishEntry]
    rw [if_pos h_week]
  · rw [if_neg h20, if_neg h50, if_neg hprr]
    simp only [finishEntry]
    rw [if_pos h_week]

/-- C9 witness: a trade entered in ISO week 2 of 2024 blocks an
otherwise-qualifying bar on 2025-01-08 — ISO week number 2 of the *next*
calendar year. -/
theorem duplicate_week_cross_year_witness :
    isoWeekNumber ⟨2024, 1, 10⟩ = 2
    ∧ isoWeekNumber ⟨2025, 1, 8⟩ = 2
    ∧ evaluateBar defaultParams ∅ ⟨1, {2}⟩ c9Row c9Ts
        = (.ok (.rejected
            { timestamp := c9Ts
              reason := .DUPLICATE_WEEK
              detail := "Already entered a trade in ISO week "
                ++ toString (isoWeekNumber c9Ts.date)
              adx := some 20
              rsi := some 50
              price_range_rank := some 1 }), ⟨1, {2}⟩) := by
  refine ⟨by decide, by decide, ?_⟩
  exact duplicate_week_ignores_iso_year defaultParams ∅ ⟨1, {2}⟩ c9Ts
    5020 4980 5010 5000 25 20 50 5050 4950 1 1 1
    ⟨by decide, by decide⟩ (by decide) (by decide) ⟨by decide, by decide⟩
    (Or.inl ⟨by decide, by norm_num [defaultParams]⟩) (by decide)

/-- C10.  `evaluate_bar` never returns the `None` outcome: every
evaluation either returns an explicit `RejectedTrade`, or — on a bar that
passes every gate — raises the `Trade(...)` constructor `TypeError`
(never an open `Trade`) while having already mutated the counter and the
week set. -/
theorem evaluate_bar_rejects_or_raises :
    ∀ (p : StrategyParams) (bl : Finset Date) (st : EngineState)
      (row : Row) (ts : Timestamp),
      (∃ r : RejectedTrade, (evaluateBar p bl st row ts).1 = .ok (.rejected r))
      ∨ evaluateBar p bl st row ts =
          (.error .typeError,
            ⟨st.tradeCounter + 1, insert (isoWeekNumber ts.date) st.enteredWeeks⟩) := by
  intro p bl st row ts
  have hkw : ¬acceptsKwargs tradeFieldNames entryTradeKwargNames = true := by
    decide
  unfold evaluateBar finishEntry
  by_cases h1 : row.ema = none ∨ row.atr = none ∨ row.adx = none ∨
      row.rsi = none ∨ row.kc_upper = none ∨ row.kc_lower = none ∨
      row.price_range_rank = none ∨ row.prr_upside = none ∨
      row.prr_downside = none
  · rw [if_pos h1]; exact Or.inl ⟨_, rfl⟩
  rw [if_neg h1]
  by_cases h2 : ¬(sessionOpenMinutes p ≤ ts.tod.minutesOfDay ∧
      ts.tod.minutesOfDay ≤ sessionCloseMinutes p)
  · rw [if_pos h2]; exact Or.inl ⟨_, rfl⟩
  rw [if_neg h2]
  by_cases h3 : ts.date ∈ bl
  · rw [if_pos h3]; exact Or.inl ⟨_, rfl⟩
  rw [if_neg h3]
  by_cases h4 : p.adx_threshold < row.adx.getD 0
  · rw [if_pos h4]; exact Or.inl ⟨_, rfl⟩
  rw [if_neg h4]
  by_cases h5 : ¬(p.rsi_low ≤ row.rsi.getD 0 ∧ row.rsi.getD 0 ≤ p.rsi_high)
  · rw [if_pos h5]; exact Or.inl ⟨_, rfl⟩
  rw [if_neg h5]
  by_cases h6 : row.adx.getD 0 ≤ 20
  · rw [if_pos h6]
    by_cases h7 : row.prr_upside.getD 0 < p.price_range_rank_min ∨
        row.prr_downside.getD 0 < p.price_range_rank_min
    · rw [if_pos h7]; exact Or.inl ⟨_, rfl⟩
    rw [if_neg h7]
    by_cases h8 : isoWeekNumber ts.date ∈ st.enteredWeeks
    · rw [if_pos h8]; exact Or.inl ⟨_, rfl⟩
    rw [if_neg h8, if_neg hkw]
    exact Or.inr rfl
  rw [if_neg h6]
  by_cases h10 : (50:ℚ) ≤ row.rsi.getD 0
  · rw [if_pos h10]
    by_cases h11 : row.prr_downside.getD 0 < p.price_range_rank_min
    · rw [if_pos h11]; exact Or.inl ⟨_, rfl⟩
    rw [if_neg h11]
    by_cases h8 : isoWeekNumber ts.date ∈ st.enteredWeeks
    · rw [if_pos h8]; exact Or.inl ⟨_, rfl⟩
    rw [if_neg h8, if_neg hkw]
    exact Or.inr rfl
  rw [if_neg h10]
  by_cases h12 : row.prr_upside.getD 0 < p.price_range_rank_min
  · rw [if_pos h12]; exact Or.inl ⟨_, rfl⟩
  rw [if_neg h12]
  by_cases h8 : isoWeekNumber ts.date ∈ st.enteredWeeks
  · rw [if_pos h8]; exact Or.inl ⟨_, rfl⟩
  rw [if_neg h8, if_neg hkw]
  exact Or.inr rfl

/-- Round-half-even never goes below the floor. -/
lemma roundHalfEven_floor_le (x : ℚ) : ⌊x⌋ ≤ roundHalfEven x := by
  simp only [roundHalfEven]
  split_ifs <;> omega

/-- Round-half-even never exceeds the floor plus one. -/
lemma roundHalfEven_le_floor_add_one (x : ℚ) : roundHalfEven x ≤ ⌊x⌋ + 1 := by
  simp only [roundHalfEven]
  split_ifs <;> omega

/-- Round-half-even is monotone. -/
lemma roundHalfEven_mono {a b : ℚ} (h : a ≤ b) :
    roundHalfEven a ≤ roundHalfEven b := by
  rcases lt_or_eq_of_le (Int.floor_le_floor h) with hf | hf
  · calc roundHalfEven a ≤ ⌊a⌋ + 1 := roundHalfEven_le_floor_add_one a
      _ ≤ ⌊b⌋ := by omega
      _ ≤ roundHalfEven b := roundHalfEven_floor_le b
  · simp only [roundHalfEven]
    rw [← hf]
    have hr : a - ⌊a⌋ ≤ b - ⌊a⌋ := by linarith
    split_ifs <;> first | omega | (exfalso; linarith)

/-- The exponential-smoothing loop keeps a nonnegative accumulator
nonnegative when `0 ≤ α ≤ 1` and the inputs are nonnegative. -/
lemma ewmGo_nonneg (α : ℚ) (h0 : 0 ≤ α) (h1 : α ≤ 1) :
    ∀ (l : List ℚ) (y : ℚ), 0 ≤ y → (∀ x ∈ l, 0 ≤ x) →
      ∀ z ∈ ewmMean.go α y l, 0 ≤ z := by
  intro l
  induction l with
  | nil =>
    intro y _ _ z hz
    simp [ewmMean.go] at hz
  | cons x xs ih =>
    intro y hy hl z hz
    simp only [ewmMean.go] at hz
    have hy' : 0 ≤ (1 - α) * y + α * x :=
      add_nonneg (mul_nonneg (by linarith) hy)
        (mul_nonneg h0 (hl x (List.mem_cons_self x xs)))
    rcases List.mem_cons.mp hz with rfl | hz'
    · exact hy'
    · exact ih ((1 - α) * y + α * x) hy'
        (fun a ha => hl a (List.mem_cons_of_mem _ ha)) z hz'

/-- `ewm(adjust=False).mean` of a nonnegative series is nonnegative when
`0 ≤ α ≤ 1`. -/
lemma ewmMean_nonneg (α : ℚ) (h0 : 0 ≤ α) (h1 : α ≤ 1) (l : List ℚ)
    (hl : ∀ x ∈ l, 0 ≤ x) : ∀ z ∈ ewmMean α l, 0 ≤ z := by
  cases l with
  | nil =>
    intro z hz
    simp [ewmMean] at hz
  | cons x xs =>
    intro z hz
    simp only [ewmMean] at hz
    rcases List.mem_cons.mp hz with rfl | hz'
    · exact hl z (List.mem_cons_self z xs)
    · exact ewmGo_nonneg α h0 h1 xs x (hl x (List.mem_cons_self x xs))
        (fun a ha => hl a (List.mem_cons_of_mem _ ha)) z hz'

/-- Later true-range entries are nonnegative on bars with `Low ≤ High`. -/
lemma specTrueRange_go_nonneg :
    ∀ (bs : List PriceBar) (prev : PriceBar),
      (∀ b ∈ bs, b.low ≤ b.high) →
      ∀ x ∈ specTrueRange.go prev bs, 0 ≤ x := by
  intro bs
  induction bs with
  | nil =>
    intro prev _ x hx
    simp [specTrueRange.go] at hx
  | cons b rest ih =>
    intro prev hb x hx
    simp only [specTrueRange.go] at hx
    rcases List.mem_cons.mp hx with rfl | hx'
    · exact le_trans (sub_nonneg.mpr (hb b (List.mem_cons_self b rest)))
        (le_max_left _ _)
    · exact ih b (fun c hc => hb c (List.mem_cons_of_mem _ hc)) x hx'

/-- The true-range column is nonnegative on bars with `Low ≤ High`. -/
lemma specTrueRange_nonneg (bars : List PriceBar)
    (hb : ∀ b ∈ bars, b.low ≤ b.high) :
    ∀ x ∈ specTrueRange bars, 0 ≤ x := by
  cases bars with
  | nil =>
    intro x hx
    simp [specTrueRange] at hx
  | cons b0 rest =>
    intro x hx
    simp only [specTrueRange] at hx
    rcases List.mem_cons.mp hx with rfl | hx'
    · exact sub_nonneg.mpr (hb b0 (List.mem_cons_self b0 rest))
    · exact specTrueRange_go_nonneg rest b0
        (fun c hc => hb c (List.mem_cons_of_mem _ hc)) x hx'

/-- Pointwise over the same EMA/ATR columns, the rounded lower band never
exceeds the rounded upper band when the multiplier is nonnegative and the
ATR entries are nonnegative. -/
lemma zipWith_round_le (m : ℚ) (hm : 0 ≤ m) :
    ∀ (es as : List ℚ), (∀ a ∈ as, 0 ≤ a) →
      List.Forall₂ (· ≤ ·)
        (List.zipWith (fun e a => ((roundHalfEven (e - m * a) : ℤ) : ℚ)) es as)
        (List.zipWith (fun e a => ((roundHalfEven (e + m * a) : ℤ) : ℚ)) es as) := by
  intro es
  induction es with
  | nil =>
    intro as _
    simp
  | cons e es ih =>
    intro as ha
    cases as with
    | nil => simp
    | cons a as' =>
      simp only [List.zipWith]
      refine List.Forall₂.cons ?_
        (ih as' fun x hx => ha x (List.mem_cons_of_mem _ hx))
      have hma : 0 ≤ m * a := mul_nonneg hm (ha a (List.mem_cons_self a as'))
      exact_mod_cast roundHalfEven_mono (by linarith : e - m * a ≤ e + m * a)

/-- C8.  For every OHLC sequence with `Low ≤ High` on every bar, every ATR
period ≥ 1 and every multiplier > 0, the rounded upper Keltner band is
pointwise ≥ the rounded lower band (both bands are defined at every row of
the embedded pipeline). -/
theorem keltner_upper_ge_lower :
    ∀ (bars : List PriceBar) (emaPeriod atrPeriod : ℕ) (mult : ℚ),
      1 ≤ atrPeriod → 0 < mult → (∀ b ∈ bars, b.low ≤ b.high) →
      List.Forall₂ (· ≤ ·)
        (kcLowerSeries emaPeriod atrPeriod mult bars)
        (kcUpperSeries emaPeriod atrPeriod mult bars) := by
  intro bars emaP atrP mult hp hm hb
  rw [kcLowerSeries, kcUpperSeries]
  refine zipWith_round_le mult hm.le _ _ ?_
  intro a ha
  rw [atrSeries_eq_ewm_spec] at ha
  refine ewmMean_nonneg _ ?_ ?_ _ (specTrueRange_nonneg bars hb) a ha
  · positivity
  · rw [div_le_one (by positivity)]
    have h1 : (1:ℚ) ≤ (atrP : ℚ) := by exact_mod_cast hp
    linarith

/-- C8 witness: the bands on a concrete two-bar series with period 2 and
multiplier 1. -/
theorem keltner_upper_ge_lower_witness :
    List.Forall₂ (· ≤ ·)
      (kcLowerSeries 2 2 1 [PriceBar.mk 3 1 2, PriceBar.mk 6 2 4])
      (kcUpperSeries 2 2 1 [PriceBar.mk 3 1 2, PriceBar.mk 6 2 4]) :=
  keltner_upper_ge_lower [PriceBar.mk 3 1 2, PriceBar.mk 6 2 4] 2 2 1
    (by norm_num) (by norm_num) (by decide)
